import Mathlib

/-
Verification of the jsweb request-processing security pipeline.

The definitions below are a shallow embedding of the Python sources:
  src/jsweb/static.py      (serve_static, with CPython posixpath semantics)
  src/jsweb/middleware.py  (CSRFMiddleware, StaticFilesMiddleware, DBSessionMiddleware)
  src/jsweb/auth.py        (init_auth, login_user, get_current_user, login_required,
                            admin_required)
Code the repository references but that is not present under src/ (response.py,
database.py, the app construction) and the external itsdangerous token codec are
modelled from the specification; each such definition carries a doc comment
saying so.
-/

namespace JsWeb

/-! ## Python string primitives

The resolver manipulates paths with `str.startswith`, slicing, `str.lstrip` and
`str.split`. They are embedded as structural recursions over the character
list of a `String` so that the kernel can evaluate them on concrete inputs. -/

/-- `xs` begins with `ys`, character by character. -/
def lBegins : List Char → List Char → Bool
  | _, [] => true
  | [], _ :: _ => false
  | c :: cs, d :: ds => c == d && lBegins cs ds

/-- Python `s.startswith(pre)`. -/
def pyStartswith (s pre : String) : Bool :=
  lBegins s.data pre.data

/-- Python `s.endswith(suf)`. -/
def pyEndswith (s suf : String) : Bool :=
  lBegins s.data.reverse suf.data.reverse

/-- Python `s[n:]`: drop the first `n` characters. -/
def pyDrop (s : String) (n : Nat) : String :=
  String.mk (s.data.drop n)

/-- Python `len(s)`. -/
def pyLen (s : String) : Nat :=
  s.data.length

/-- Python `s.lstrip("/")`: drop leading slash characters. -/
def lstripSlash (s : String) : String :=
  String.mk (s.data.dropWhile (· == '/'))

/-- Helper for `pySplitSlash`: accumulates the current component reversed. -/
def splitSlashAux : List Char → List Char → List String
  | [], acc => [String.mk acc.reverse]
  | c :: cs, acc =>
      if c == '/' then String.mk acc.reverse :: splitSlashAux cs []
      else splitSlashAux cs (c :: acc)

/-- Python `s.split("/")`. -/
def pySplitSlash (s : String) : List String :=
  splitSlashAux s.data []

/-- Join components with a single slash (Python `"/".join(comps)`). -/
def joinSlash : List String → String
  | [] => ""
  | [x] => x
  | x :: xs => x ++ "/" ++ joinSlash xs

/-! ## CPython posixpath semantics (os.path.normpath / join / abspath) -/

/-- One step of the component loop inside CPython `posixpath.normpath`:
`for comp in comps: if comp in ('', '.'): continue; if (comp != '..' or
(not initial_slashes and not new_comps) or (new_comps and new_comps[-1] == '..')):
new_comps.append(comp); elif new_comps: new_comps.pop()`. -/
def normpathStep (initialSlashes : Nat) (acc : List String) (comp : String) : List String :=
  if comp == "" || comp == "." then acc
  else if comp != ".." || (initialSlashes == 0 && acc.isEmpty)
          || (!acc.isEmpty && acc.getLast? == some "..") then acc ++ [comp]
  else if !acc.isEmpty then acc.dropLast
  else acc

/-- CPython `posixpath.normpath`: collapse `.`, `..` and repeated separators,
preserving the initial-slash count (with the POSIX `//` special case). -/
def normpath (path : String) : String :=
  if path = "" then "."
  else
    let initialSlashes : Nat :=
      if pyStartswith path "/" then
        if pyStartswith path "//" && !(pyStartswith path "///") then 2 else 1
      else 0
    let comps := pySplitSlash path
    let newComps := comps.foldl (normpathStep initialSlashes) []
    let joined := String.mk (List.replicate initialSlashes '/') ++ joinSlash newComps
    if joined = "" then "." else joined

/-- CPython `posixpath.join` restricted to two arguments: an absolute second
argument replaces the first, otherwise the parts are glued with one `/`. -/
def pathJoin (a b : String) : String :=
  if pyStartswith b "/" then b
  else if a = "" || pyEndswith a "/" then a ++ b
  else a ++ "/" ++ b

/-- CPython `posixpath.abspath` with the process working directory explicit:
make the path absolute against `cwd`, then normalize. -/
def abspath (cwd path : String) : String :=
  if pyStartswith path "/" then normpath path
  else normpath (pathJoin cwd path)

/-! ## Responses (modelled: response.py is referenced by the sources but absent) -/

/-- Modelled from the spec: response.py is not under src/. A structured response
is a status code, a body, and a content type (§1, §6). -/
structure Response where
  status_code : Nat
  body : String
  content_type : String
deriving DecidableEq

/-- Modelled from the spec: response.py is not under src/. `HTMLResponse(body,
status_code=...)` is a `Response` whose content type is HTML. -/
def HTMLResponse (body : String) (status_code : Nat) : Response :=
  { status_code := status_code, body := body, content_type := "text/html" }

/-- Modelled from the spec: response.py is not under src/. `Forbidden(msg)` is the
fixed 403 response carrying the literal message (§6: status 403, body containing
the exact phrase). -/
def Forbidden (msg : String) : Response :=
  HTMLResponse msg 403

/-! ## Static asset resolver (src/jsweb/static.py) -/

/-- The filesystem the resolver runs against, abstracted: which paths are regular
files, and what reading a path yields (`none` models an `IOError`). -/
structure FileSystem where
  isFile : String → Bool
  readBytes : String → Option String

/-- The `mimetypes.guess_type` table restricted to the extensions this
development exercises; any other extension yields `none`, which `serve_static`
replaces with the generic binary type, as in the source. -/
def guessType (p : String) : Option String :=
  if pyEndswith p ".css" then some "text/css"
  else if pyEndswith p ".html" then some "text/html"
  else if pyEndswith p ".js" then some "text/javascript"
  else if pyEndswith p ".png" then some "image/png"
  else none

/-- The `full_path` that `serve_static` computes (steps 2-3 of the source):
strip the URL prefix and leading slashes, join onto the absolute root, and
normalize. -/
def resolvedPath (cwd request_path static_url static_dir : String) : String :=
  normpath (pathJoin (abspath cwd static_dir)
    (lstripSlash (pyDrop request_path (pyLen static_url))))

/-- src/jsweb/static.py `serve_static(request_path, static_url, static_dir)`,
with the filesystem and the working directory explicit. Mirrors the source
branch for branch: prefix guard (404), relative-path computation, `normpath`
containment check (403), regular-file check (404), read (500 on failure),
and 200 with the guessed content type. -/
def serve_static (fs : FileSystem) (cwd : String)
    (request_path static_url static_dir : String) : Response :=
  if !(pyStartswith request_path static_url) then HTMLResponse "404 Not Found" 404
  else
    let base_dir := abspath cwd static_dir
    let full_path := resolvedPath cwd request_path static_url static_dir
    if !(pyStartswith full_path base_dir) then HTMLResponse "403 Forbidden" 403
    else if !(fs.isFile full_path) then HTMLResponse "404 Not Found" 404
    else
      match fs.readBytes full_path with
      | none => HTMLResponse "500 Internal Server Error" 500
      | some content =>
          { status_code := 200, body := content,
            content_type := (guessType full_path).getD "application/octet-stream" }

/-- A filesystem with no files at all. -/
def fsEmpty : FileSystem :=
  ⟨fun _ => false, fun _ => none⟩

/-- A filesystem holding exactly one file, in a sibling directory of
`/srv/app/static` whose name extends the root's final component without an
intervening separator. -/
def fsSibling : FileSystem :=
  ⟨fun p => p == "/srv/app/static_private/f",
   fun p => if p == "/srv/app/static_private/f" then some "sibling-secret" else none⟩

/-- The spec's escape predicate (§3: the resolved absolute file path must be a
descendant of the root directory after normalization). Stated from the spec's
words, to be compared with the `startsWith` check the source actually performs. -/
def isDescendant (p root : String) : Bool :=
  p == root || pyStartswith p (root ++ "/")

/-! ## CSRF guard (src/jsweb/middleware.py, CSRFMiddleware) -/

/-- Python truthiness of an optional string: `None` and `""` are falsy. -/
def truthy : Option String → Bool
  | none => false
  | some s => s != ""

/-- `secrets.compare_digest` on strings decides byte-for-byte equality; its
constant-time execution has no observable counterpart in this model. -/
def compare_digest (a b : String) : Bool :=
  a == b

/-- The request data the CSRF middleware consults: the HTTP method, the
`csrf_token` field of the parsed body (`(await req.form()).get("csrf_token")`,
which accepts form-encoded and JSON bodies) and the `csrf_token` cookie
(`req.cookies.get("csrf_token")`). -/
structure CsrfRequest where
  method : String
  formToken : Option String
  cookieToken : Option String
deriving DecidableEq

/-- What a middleware does with a request: forward it to the wrapped app, or
answer itself with a response, never invoking the wrapped app. -/
inductive MwOutcome where
  | forwarded
  | rejected (resp : Response)
deriving DecidableEq

/-- src/jsweb/middleware.py `CSRFMiddleware.__call__` on an http scope: for
POST/PUT/PATCH/DELETE, reject with `Forbidden("CSRF token missing or
invalid.")` unless both tokens are truthy and `compare_digest` accepts the
pair (`if not form_token or not cookie_token or not
secrets.compare_digest(form_token, cookie_token)`); every other method is
forwarded untouched. -/
def csrfMiddleware (req : CsrfRequest) : MwOutcome :=
  if req.method == "POST" || req.method == "PUT"
      || req.method == "PATCH" || req.method == "DELETE" then
    if !(truthy req.formToken) || !(truthy req.cookieToken)
        || !(compare_digest (req.formToken.getD "") (req.cookieToken.getD "")) then
      .rejected (Forbidden "CSRF token missing or invalid.")
    else .forwarded
  else .forwarded

/-! ## Transactional scope binder (src/jsweb/middleware.py, DBSessionMiddleware) -/

/-- The observable calls the binder makes: running the wrapped app, and the
`db_session` operations. `commit`, `rollback` and `remove` belong to
database.py, which is not under src/; modelled from the spec (§4.6) as plain
events that always succeed. -/
inductive DbEvent where
  | appRun
  | commit
  | rollback
  | remove
deriving DecidableEq

/-- How a call of the wrapped app terminates, mirroring Python's exception
hierarchy as the `try/except Exception/finally` in the source dispatches on
it: a normal return; a raised `Exception` instance (matched by
`except Exception`); or a raised `BaseException` that is not an `Exception` —
`asyncio.CancelledError` on request cancellation, `SystemExit`,
`KeyboardInterrupt` — which no `except` clause matches, so only the `finally`
block runs on its way out. -/
inductive PyOutcome (ε : Type) where
  | ok
  | exn (e : ε)
  | baseExn (e : ε)

/-- src/jsweb/middleware.py `DBSessionMiddleware.__call__` on an http scope,
as a function of the wrapped app's outcome: the trace of events in order,
paired with what propagates to the caller. The `try/except Exception/finally`
shape gives commit after a normal return; rollback plus re-raise when the app
raises an `Exception`; and for a `BaseException` that is not an `Exception`
(cancellation among them) neither commit nor rollback — the exception passes
the `except Exception` clause by and only the `finally` `remove` runs. -/
def dbSessionCall {ε : Type} (appOutcome : PyOutcome ε) :
    List DbEvent × PyOutcome ε :=
  match appOutcome with
  | .ok => ([.appRun, .commit, .remove], .ok)
  | .exn e => ([.appRun, .rollback, .remove], .exn e)
  | .baseExn e => ([.appRun, .remove], .baseExn e)

/-! ## Static files middleware (src/jsweb/middleware.py, StaticFilesMiddleware) -/

/-- A mounted sub-application's (blueprint's) static configuration: its URL
path and folder. An empty `static_url_path` stands for a falsy value, which
the middleware loop skips. -/
structure Blueprint where
  static_url_path : String
  static_folder : String
deriving DecidableEq

/-- Which root `StaticFilesMiddleware.__call__` hands the request to. -/
inductive StaticChoice where
  | viaBlueprint (bp : Blueprint)
  | viaGlobal
  | downstream
deriving DecidableEq

/-- The per-blueprint test in the middleware loop:
`if bp.static_url_path and req.path.startswith(bp.static_url_path)`. -/
def bpMatches (path : String) (bp : Blueprint) : Bool :=
  bp.static_url_path != "" && pyStartswith path bp.static_url_path

/-- src/jsweb/middleware.py `StaticFilesMiddleware.__call__` on an http scope:
the first blueprint in list order whose URL path matches serves the request
(via `serve_static` on that blueprint's prefix and folder); otherwise the
global static root if its URL matches; otherwise the wrapped app. -/
def staticFilesRoute (bps : List Blueprint) (static_url path : String) :
    StaticChoice :=
  match bps.find? (bpMatches path) with
  | some bp => .viaBlueprint bp
  | none => if pyStartswith path static_url then .viaGlobal else .downstream

/-- Modelled from the spec: the application construction that fills
`blueprint_statics` is not under src/; per §4.5 the registered sub-application
roots are ordered most-specific (longest URL path) first. -/
def MostSpecificFirst (bps : List Blueprint) : Prop :=
  List.Pairwise (fun a b => pyLen b.static_url_path ≤ pyLen a.static_url_path) bps

/-! ## Token verification errors (itsdangerous exception classes) -/

/-- The itsdangerous exception classes token verification can raise. Each
constructor is one exact class; the library hierarchy is
`SignatureExpired <: BadTimeSignature <: BadSignature`, with `BadPayload` on a
separate branch. -/
inductive SigError where
  | badSignature
  | badTimeSignature
  | signatureExpired
  | badPayload
deriving DecidableEq

/-- The catch clause of `get_current_user`:
`except (SignatureExpired, BadTimeSignature)`. An exception is caught exactly
when its class is one of the named classes or a subclass of one; the bare
parent class `BadSignature` and `BadPayload` are not caught. -/
def caughtByGetCurrentUser : SigError → Bool
  | .signatureExpired => true
  | .badTimeSignature => true
  | _ => false

/-! ## String-level unsigning (itsdangerous Signer / TimestampSigner) -/

/-- Python `"." in s`. -/
def containsDot (s : String) : Bool :=
  s.data.contains '.'

/-- Python `s.rsplit(".", 1)` for a string containing a dot: the part before
the last dot and the part after it. -/
def rsplitDot (s : String) : String × String :=
  let rev := s.data.reverse
  (String.mk ((rev.dropWhile (· != '.')).drop 1).reverse,
   String.mk (rev.takeWhile (· != '.')).reverse)

/-- itsdangerous `Signer.unsign`: a value with no separator is rejected with a
bare `BadSignature` carrying no payload; otherwise the part after the last dot
is checked as the signature of the part before it, and a failure is a bare
`BadSignature` carrying that part as its payload. `verify` abstracts
`Signer.verify_signature` (the keyed HMAC check). -/
def signerUnsign (verify : String → String → Bool) (s : String) :
    Except (SigError × Option String) String :=
  if !(containsDot s) then .error (.badSignature, none)
  else
    let vs := rsplitDot s
    if verify vs.1 vs.2 then .ok vs.1
    else .error (.badSignature, some vs.1)

/-- itsdangerous `TimestampSigner.unsign`: run `Signer.unsign`, holding a
signature error aside together with its payload (`e.payload or b""`). If what
remains has no timestamp separator, the held signature error is re-raised as
is — this is the path on which a bare `BadSignature` escapes — or, with a good
signature, `BadTimeSignature("timestamp missing")` is raised. With a
separator, a held signature error or an unparsable timestamp surfaces as
`BadTimeSignature`; otherwise the age is checked and `age > max_age` raises
`SignatureExpired`. `parseTs` abstracts the base64 timestamp decoding. -/
def timestampUnsign (verify : String → String → Bool)
    (parseTs : String → Option Nat) (now maxAge : Nat) (s : String) :
    Except SigError (String × Nat) :=
  let unsigned :=
    match signerUnsign verify s with
    | .ok v => (v, (none : Option SigError))
    | .error ep => (ep.2.getD "", some ep.1)
  if !(containsDot unsigned.1) then
    match unsigned.2 with
    | some e => .error e
    | none => .error .badTimeSignature
  else
    let vt := rsplitDot unsigned.1
    match unsigned.2 with
    | some _ => .error .badTimeSignature
    | none =>
      match parseTs vt.2 with
      | none => .error .badTimeSignature
      | some ts =>
        if now - ts > maxAge then .error .signatureExpired else .ok (vt.1, ts)

/-- itsdangerous `Serializer.loads` of the timed serializer: unsign, then
decode the payload; an undecodable payload under a valid signature raises
`BadPayload`. `decode` abstracts the URL-safe JSON payload decoding to the
identity value. -/
def serializerLoads (verify : String → String → Bool)
    (parseTs : String → Option Nat) (decode : String → Option Nat)
    (now maxAge : Nat) (s : String) : Except SigError Nat :=
  match timestampUnsign verify parseTs now maxAge s with
  | .error e => .error e
  | .ok vt =>
    match decode vt.1 with
    | some i => .ok i
    | none => .error .badPayload

/-- src/jsweb/auth.py `get_current_user` at the cookie-string level: a missing
or empty (falsy) cookie is the anonymous caller; otherwise
`_serializer.loads(session_token, max_age=2592000)` runs, `SignatureExpired`
and `BadTimeSignature` degrade to anonymous, and a decoded identity is handed
to `_user_loader`. A `.error` value models an exception escaping
`get_current_user` uncaught. -/
def get_current_user {υ : Type} (verify : String → String → Bool)
    (parseTs : String → Option Nat) (decode : String → Option Nat)
    (loader : Nat → Option υ) (now : Nat) (cookie : Option String) :
    Except SigError (Option υ) :=
  match cookie with
  | none => .ok none
  | some tok =>
    if tok == "" then .ok none
    else
      match serializerLoads verify parseTs decode now 2592000 tok with
      | .ok uid => .ok (loader uid)
      | .error e => if caughtByGetCurrentUser e then .ok none else .error e

/-! ## Token codec over structured tokens (spec §3, §4.1) -/

/-- Modelled from the spec: the Identity Token's data model (§3: an opaque
string encoding the triple {identity-id, issue-time, signature}; the codec
itself lives in the external itsdangerous library, not under src/). The
serialization of the triple into the cookie string is treated as exact here;
the string-level parsing pipeline is `timestampUnsign` above. -/
structure SignedToken where
  payloadId : Nat
  timestamp : Nat
  signature : Nat
deriving DecidableEq

/-- Modelled from the spec: the codec's signing function (an HMAC keyed by the
process-wide secret, §4.1) abstracted as a concrete keyed hash; none of the
properties proved below depend on its collision resistance. -/
def sign (secret : String) (payloadId ts : Nat) : Nat :=
  (secret.data.foldl (fun a c => a * 131 + c.toNat) 7) * 1000003
    + payloadId * 65599 + ts

/-- `issue(identity)` of the Token Codec (§4.1), the serializer call behind
`login_user`: stamp the identity with the issue time and sign. -/
def issueToken (secret : String) (i now : Nat) : SignedToken :=
  ⟨i, now, sign secret i now⟩

/-- Outcome of `verify(token)` (§4.1): the identity, or Invalid, or Expired. -/
inductive VerifyResult where
  | ok (i : Nat)
  | invalid
  | expired
deriving DecidableEq

/-- `verify(token)` of the Token Codec (§4.1): signature first (fails closed),
then elapsed age against the maximum (itsdangerous expires on
`age > max_age`). -/
def verifyToken (secret : String) (maxAge : Nat) (tok : SignedToken)
    (now : Nat) : VerifyResult :=
  if tok.signature != sign secret tok.payloadId tok.timestamp then .invalid
  else if now - tok.timestamp > maxAge then .expired
  else .ok tok.payloadId

/-! ## Session authenticator state (src/jsweb/auth.py) -/

/-- src/jsweb/auth.py module state set by `init_auth`: exactly the serializer
secret and the user loader. `init_auth(secret_key, user_loader_func)` has no
maximum-age parameter. -/
structure AuthState (υ : Type) where
  secret_key : String
  user_loader : Nat → Option υ

/-- src/jsweb/auth.py `init_auth(secret_key, user_loader_func)`: the one-time
initialization made at process start. -/
def init_auth {υ : Type} (secret_key : String)
    (user_loader : Nat → Option υ) : AuthState υ :=
  ⟨secret_key, user_loader⟩

/-- src/jsweb/auth.py `login_user(response, user)`: the value set as the
`session` cookie is a token issued for `user.id` at the current time
(`_serializer.dumps(user.id)`). -/
def login_user {υ : Type} (st : AuthState υ) (userId now : Nat) : SignedToken :=
  issueToken st.secret_key userId now

/-- src/jsweb/auth.py `get_current_user` over structured (well-formed) tokens:
verification uses the literal `max_age=2592000` hardcoded at the call site —
nothing in `AuthState` feeds it. For a well-formed token both Invalid
(`BadTimeSignature`) and Expired (`SignatureExpired`) fall inside the caught
classes, so both degrade to the anonymous caller. -/
def get_current_user_t {υ : Type} (st : AuthState υ)
    (cookie : Option SignedToken) (now : Nat) : Option υ :=
  match cookie with
  | none => none
  | some tok =>
    match verifyToken st.secret_key 2592000 tok now with
    | .ok uid => st.user_loader uid
    | .invalid => none
    | .expired => none

/-! ## Access guards (src/jsweb/auth.py, login_required / admin_required) -/

/-- The request as the guards see it: `request.user`, resolved earlier in the
pipeline (`None` is the anonymous caller). -/
structure GuardRequest (υ : Type) where
  user : Option υ

/-- A guarded call either redirects — the handler body never ran — or carries
the handler's response. -/
inductive GuardResult (ρ : Type) where
  | redirectTo (url : String)
  | handled (resp : ρ)

/-- src/jsweb/auth.py `login_required(handler)`: anonymous callers are
redirected to `url_for(request, 'auth.login')`; otherwise the handler runs on
the request and its pass-through arguments (sync and async handlers both
reduce to the value their call yields). `url_for` and `redirect` belong to
response.py, not under src/; modelled from the spec (§6) as the externally
supplied name-to-URL resolution and a standard redirect response. -/
def login_required {υ σ ρ : Type} (url_for : String → String)
    (handler : GuardRequest υ → σ → ρ) (request : GuardRequest υ)
    (args : σ) : GuardResult ρ :=
  match request.user with
  | none => .redirectTo (url_for "auth.login")
  | some _ => .handled (handler request args)

/-- src/jsweb/auth.py `admin_required(handler)`: callers that are anonymous or
lack the elevated flag (`getattr(request.user, 'is_admin', False)`, embedded
as the `is_admin` projection) are redirected to
`url_for(request, 'admin.index')`. -/
def admin_required {υ σ ρ : Type} (url_for : String → String)
    (is_admin : υ → Bool) (handler : GuardRequest υ → σ → ρ)
    (request : GuardRequest υ) (args : σ) : GuardResult ρ :=
  match request.user with
  | none => .redirectTo (url_for "admin.index")
  | some u =>
    if !(is_admin u) then .redirectTo (url_for "admin.index")
    else .handled (handler request args)

/-! ## Claim C1 -/

/-- Claim C1, counterexample: with root `/srv/app/static`, the request
`/static/../static_private/f` normalizes to `/srv/app/static_private/f` — a
path that escapes the root (it is not a descendant of it) — yet `serve_static`
answers 200 with the sibling file's bytes when that file exists, not 403. -/
theorem C1_counterexample :
    resolvedPath "/" "/static/../static_private/f" "/static" "/srv/app/static"
        = "/srv/app/static_private/f"
    ∧ isDescendant "/srv/app/static_private/f" (abspath "/" "/srv/app/static")
        = false
    ∧ (serve_static fsSibling "/" "/static/../static_private/f" "/static"
        "/srv/app/static").status_code = 200 :=
  ⟨rfl, rfl, rfl⟩

/-- Claim C1 (amended): whenever the normalized resolution fails the check the
source actually performs — the resolved path does not extend the string
`abspath(static_dir)` — `serve_static` answers 403 on every filesystem, so
never 200; in particular the probe
`resolve("/static/../../etc/passwd", "/static", "/srv/app/static")` is
answered 403 on every filesystem, whether or not `/etc/passwd` exists.
Escapes that keep `abspath(static_dir)` as a string prefix (sibling
directories) are not covered. -/
theorem C1_amended :
    (∀ (fs : FileSystem) (cwd request_path static_url static_dir : String),
      pyStartswith request_path static_url = true →
      pyStartswith (resolvedPath cwd request_path static_url static_dir)
          (abspath cwd static_dir) = false →
      serve_static fs cwd request_path static_url static_dir
        = HTMLResponse "403 Forbidden" 403)
    ∧ (∀ fs : FileSystem,
      serve_static fs "/" "/static/../../etc/passwd" "/static" "/srv/app/static"
        = HTMLResponse "403 Forbidden" 403) := by
  constructor
  · intro fs cwd request_path static_url static_dir hpre hesc
    unfold serve_static
    simp [hpre, hesc]
  · intro fs
    rfl

/-- Claim C1, witness: the amended theorem applied to the `/etc/passwd` probe
on the empty filesystem, both hypotheses discharged by computation. -/
theorem C1_witness :
    serve_static fsEmpty "/" "/static/../../etc/passwd" "/static" "/srv/app/static"
        = HTMLResponse "403 Forbidden" 403 :=
  C1_amended.1 fsEmpty "/" "/static/../../etc/passwd" "/static" "/srv/app/static"
    rfl rfl

/-! ## Claim C7 -/

/-- Claim C7, counterexample: a request path that does not start with the
configured URL prefix is answered 404 by `serve_static`, not 403 as claimed. -/
theorem C7_counterexample :
    pyStartswith "/app.py" "/static" = false
    ∧ serve_static fsEmpty "/" "/app.py" "/static" "/srv/app/static"
        = HTMLResponse "404 Not Found" 404
    ∧ (serve_static fsEmpty "/" "/app.py" "/static" "/srv/app/static").status_code
        ≠ 403 :=
  ⟨rfl, rfl, by decide⟩

/-- Claim C7 (amended): a prefix mismatch yields 404 (the same status as a
missing file, not the 403 of a traversal attempt); a missing or
non-regular-file target yields 404; a read failure yields 500. -/
theorem C7_amended (fs : FileSystem) (cwd request_path static_url static_dir : String) :
    (pyStartswith request_path static_url = false →
      serve_static fs cwd request_path static_url static_dir
        = HTMLResponse "404 Not Found" 404)
    ∧ (pyStartswith request_path static_url = true →
       pyStartswith (resolvedPath cwd request_path static_url static_dir)
          (abspath cwd static_dir) = true →
       fs.isFile (resolvedPath cwd request_path static_url static_dir) = false →
       serve_static fs cwd request_path static_url static_dir
         = HTMLResponse "404 Not Found" 404)
    ∧ (pyStartswith request_path static_url = true →
       pyStartswith (resolvedPath cwd request_path static_url static_dir)
          (abspath cwd static_dir) = true →
       fs.isFile (resolvedPath cwd request_path static_url static_dir) = true →
       fs.readBytes (resolvedPath cwd request_path static_url static_dir) = none →
       serve_static fs cwd request_path static_url static_dir
         = HTMLResponse "500 Internal Server Error" 500) := by
  refine ⟨fun hpre => ?_, fun hpre hin hfile => ?_, fun hpre hin hfile hread => ?_⟩
  · unfold serve_static
    simp [hpre]
  · unfold serve_static
    simp [hpre, hin, hfile]
  · unfold serve_static
    simp [hpre, hin, hfile, hread]

/-- Claim C7, witness: the amended theorem at concrete requests — the prefix
mismatch `/app.py`, and a missing file under the prefix, on the empty
filesystem. -/
theorem C7_witness :
    serve_static fsEmpty "/" "/app.py" "/static" "/srv/app/static"
        = HTMLResponse "404 Not Found" 404
    ∧ serve_static fsEmpty "/" "/static/css/a.css" "/static" "/srv/app/static"
        = HTMLResponse "404 Not Found" 404 :=
  ⟨(C7_amended fsEmpty "/" "/app.py" "/static" "/srv/app/static").1 rfl,
   (C7_amended fsEmpty "/" "/static/css/a.css" "/static" "/srv/app/static").2.1
     rfl rfl rfl⟩

/-! ## Claim C10 -/

/-- Claim C10: given a matching URL prefix, the traversal branch accepts the
request exactly when the normalized resolution extends the string
`abspath(static_dir)`; consequently the sibling-directory request
`/static/../static_private/f` against root `/srv/app/static` — whose
resolution `/srv/app/static_private/f` is not a descendant of the root — is
not rejected by the 403 branch and is served with 200 when the sibling file
exists. -/
theorem C10_stringPrefixCheck :
    (∀ (fs : FileSystem) (cwd request_path static_url static_dir : String),
      pyStartswith request_path static_url = true →
      ((serve_static fs cwd request_path static_url static_dir).status_code ≠ 403 ↔
        pyStartswith (resolvedPath cwd request_path static_url static_dir)
          (abspath cwd static_dir) = true))
    ∧ resolvedPath "/" "/static/../static_private/f" "/static" "/srv/app/static"
        = "/srv/app/static_private/f"
    ∧ isDescendant
        (resolvedPath "/" "/static/../static_private/f" "/static" "/srv/app/static")
        (abspath "/" "/srv/app/static") = false
    ∧ (serve_static fsSibling "/" "/static/../static_private/f" "/static"
        "/srv/app/static").status_code = 200 := by
  refine ⟨?_, rfl, rfl, rfl⟩
  intro fs cwd request_path static_url static_dir hpre
  unfold serve_static
  cases hin : pyStartswith (resolvedPath cwd request_path static_url static_dir)
      (abspath cwd static_dir) with
  | false =>
    simp [hpre, hin, HTMLResponse]
  | true =>
    simp only [hpre, hin, Bool.not_true, Bool.false_eq_true, if_false, if_true]
    cases hfile : fs.isFile (resolvedPath cwd request_path static_url static_dir) with
    | false => simp [hfile, HTMLResponse]
    | true =>
      cases hread : fs.readBytes (resolvedPath cwd request_path static_url static_dir) with
      | none => simp [hfile, hread, HTMLResponse]
      | some content => simp [hfile, hread, HTMLResponse]

/-- Claim C10, witness: the characterization applied to the sibling-directory
request on the sibling filesystem, its hypothesis discharged by computation. -/
theorem C10_witness :
    (serve_static fsSibling "/" "/static/../static_private/f" "/static"
        "/srv/app/static").status_code ≠ 403 :=
  (C10_stringPrefixCheck.1 fsSibling "/" "/static/../static_private/f" "/static"
      "/srv/app/static" rfl).mpr rfl

/-! ## Claim C2 -/

/-- Claim C2, counterexample: on a POST whose cookie token and body token are
both present and equal under `compare_digest` — both are the empty string —
the guard rejects instead of forwarding, because Python's truthiness test
treats the empty token as missing. -/
theorem C2_counterexample :
    (CsrfRequest.mk "POST" (some "") (some "")).formToken.isSome = true
    ∧ (CsrfRequest.mk "POST" (some "") (some "")).cookieToken.isSome = true
    ∧ compare_digest "" "" = true
    ∧ csrfMiddleware (CsrfRequest.mk "POST" (some "") (some ""))
        = MwOutcome.rejected (Forbidden "CSRF token missing or invalid.")
    ∧ csrfMiddleware (CsrfRequest.mk "POST" (some "") (some ""))
        ≠ MwOutcome.forwarded :=
  ⟨rfl, rfl, rfl, rfl, by decide⟩

/-- Claim C2 (amended): for POST/PUT/PATCH/DELETE the guard forwards the
request if and only if the cookie token and the submitted body token are both
present, non-empty and equal under the constant-time comparison; every
non-forwarded mutating request is answered with the 403 response whose body is
the literal `CSRF token missing or invalid.` and the downstream handler is
never invoked; requests with any other method are always forwarded. -/
theorem csrfForwardIffGuardFalse (m : String) (ft ct : Option String)
    (hmut : (m == "POST" || m == "PUT" || m == "PATCH" || m == "DELETE") = true) :
    csrfMiddleware ⟨m, ft, ct⟩ = .forwarded ↔
      (!(truthy ft) || !(truthy ct)
        || !(compare_digest (ft.getD "") (ct.getD ""))) = false := by
  cases hcond : (!(truthy ft) || !(truthy ct)
      || !(compare_digest (ft.getD "") (ct.getD ""))) <;>
    simp [csrfMiddleware, hmut, hcond]

theorem csrfGuardFalseIffTokens (ft ct : Option String) :
    (!(truthy ft) || !(truthy ct)
      || !(compare_digest (ft.getD "") (ct.getD ""))) = false ↔
      ∃ t, ft = some t ∧ ct = some t ∧ t ≠ "" := by
  cases ft with
  | none => simp [truthy]
  | some a =>
    cases ct with
    | none => simp [truthy]
    | some b =>
      by_cases ha : a = ""
      · subst ha
        simp [truthy]
      · by_cases hb : b = ""
        · subst hb
          simp [truthy, ha]
          exact fun h => absurd h.symm ha
        · by_cases hab : a = b
          · subst hab
            simp [truthy, compare_digest, ha]
          · simp [truthy, compare_digest, ha, hb, hab, Ne.symm hab]

theorem C2_amended (req : CsrfRequest) :
    ((req.method = "POST" ∨ req.method = "PUT" ∨ req.method = "PATCH"
        ∨ req.method = "DELETE") →
      ((csrfMiddleware req = .forwarded ↔
        ∃ t, req.formToken = some t ∧ req.cookieToken = some t ∧ t ≠ "")
      ∧ (csrfMiddleware req ≠ .forwarded →
          csrfMiddleware req
            = .rejected (Forbidden "CSRF token missing or invalid."))))
    ∧ ((req.method ≠ "POST" ∧ req.method ≠ "PUT" ∧ req.method ≠ "PATCH"
        ∧ req.method ≠ "DELETE") →
      csrfMiddleware req = .forwarded) := by
  obtain ⟨m, ft, ct⟩ := req
  constructor
  · intro hm
    have hmut : (m == "POST" || m == "PUT" || m == "PATCH" || m == "DELETE")
        = true := by
      rcases hm with h | h | h | h
      · have h2 : m = "POST" := h
        subst h2
        rfl
      · have h2 : m = "PUT" := h
        subst h2
        rfl
      · have h2 : m = "PATCH" := h
        subst h2
        rfl
      · have h2 : m = "DELETE" := h
        subst h2
        rfl
    refine ⟨(csrfForwardIffGuardFalse m ft ct hmut).trans
        (csrfGuardFalseIffTokens ft ct), ?_⟩
    intro hne
    cases hcond : (!(truthy ft) || !(truthy ct)
        || !(compare_digest (ft.getD "") (ct.getD ""))) with
    | false =>
      exact absurd ((csrfForwardIffGuardFalse m ft ct hmut).mpr hcond) hne
    | true =>
      simp [csrfMiddleware, hmut, hcond]
  · intro hm
    obtain ⟨h1, h2, h3, h4⟩ := hm
    simp [csrfMiddleware, h1, h2, h3, h4]

/-- Claim C2, witness: the amended theorem at concrete requests — a POST with
matching non-empty tokens is forwarded, and a GET with no tokens at all is
forwarded. -/
theorem C2_witness :
    csrfMiddleware (CsrfRequest.mk "POST" (some "tok") (some "tok"))
        = MwOutcome.forwarded
    ∧ csrfMiddleware (CsrfRequest.mk "GET" none none) = MwOutcome.forwarded :=
  ⟨((C2_amended ⟨"POST", some "tok", some "tok"⟩).1 (Or.inl rfl)).1.mpr
      ⟨"tok", rfl, rfl, by decide⟩,
   (C2_amended ⟨"GET", none, none⟩).2
      ⟨by decide, by decide, by decide, by decide⟩⟩

/-! ## Claim C3 -/

/-- Claim C3: evaluation at the failing input. When the wrapped app is
terminated by a `BaseException` that is not an `Exception` — the request
cancellation the spec folds into this invariant, or `SystemExit` — the
source's `except Exception` clause does not match it, so the binder invokes
neither commit nor rollback; only the `finally` `remove` runs and the
exception propagates. The claimed "exactly one of {commit, rollback} before
release" therefore fails on that path, while on an ordinary `Exception` the
binder does roll back exactly once, remove exactly once, and re-raise the
original value unchanged. -/
theorem C3_failingEvaluation :
    (dbSessionCall (PyOutcome.baseExn "CancelledError" : PyOutcome String)).1
        = [DbEvent.appRun, DbEvent.remove]
    ∧ ((dbSessionCall (PyOutcome.baseExn "CancelledError" : PyOutcome String)).1.count
          DbEvent.commit
        + (dbSessionCall (PyOutcome.baseExn "CancelledError" : PyOutcome String)).1.count
          DbEvent.rollback = 0)
    ∧ (dbSessionCall (PyOutcome.baseExn "CancelledError" : PyOutcome String)).1.count
        DbEvent.remove = 1
    ∧ (dbSessionCall (PyOutcome.baseExn "CancelledError" : PyOutcome String)).2
        = PyOutcome.baseExn "CancelledError"
    ∧ (dbSessionCall (PyOutcome.exn "ValueError" : PyOutcome String)).1
        = [DbEvent.appRun, DbEvent.rollback, DbEvent.remove]
    ∧ (dbSessionCall (PyOutcome.exn "ValueError" : PyOutcome String)).2
        = PyOutcome.exn "ValueError"
    ∧ (dbSessionCall (PyOutcome.ok : PyOutcome String)).1
        = [DbEvent.appRun, DbEvent.commit, DbEvent.remove] :=
  ⟨rfl, rfl, rfl, rfl, rfl, rfl, rfl⟩

/-! ## Claim C4 -/

/-- Claim C4: evaluation at the failing input. A session cookie with no `.`
separator (here `"x"`) makes `Signer.unsign` raise the bare `BadSignature`
class, which `TimestampSigner.unsign` re-raises as is; the catch clause
`except (SignatureExpired, BadTimeSignature)` does not cover the parent class,
so `get_current_user` propagates the exception instead of returning the
anonymous caller — whatever the secret, loader, and clock are. -/
theorem C4_failingEvaluation {υ : Type} (verify : String → String → Bool)
    (parseTs : String → Option Nat) (decode : String → Option Nat)
    (loader : Nat → Option υ) (now : Nat) :
    get_current_user verify parseTs decode loader now (some "x")
        = .error .badSignature
    ∧ caughtByGetCurrentUser .badSignature = false :=
  ⟨rfl, rfl⟩

/-! ## Claim C5 -/

/-- Claim C5: for every identity, verifying the token issued for it at any
elapsed time strictly below the maximum age returns exactly that identity;
through the session layer, the cookie set by `login_user` resolves, before
expiry, to exactly what the loader yields for that identity. -/
theorem C5_roundTrip {υ : Type} (loader : Nat → Option υ) (secret : String)
    (i issuedAt t : Nat) (h : t < 2592000) :
    verifyToken secret 2592000 (issueToken secret i issuedAt) (issuedAt + t)
        = .ok i
    ∧ get_current_user_t (init_auth secret loader)
        (some (login_user (init_auth secret loader) i issuedAt)) (issuedAt + t)
        = loader i := by
  have hage : ¬ (issuedAt + t - issuedAt > 2592000) := by omega
  have hv : verifyToken secret 2592000 (issueToken secret i issuedAt)
      (issuedAt + t) = .ok i := by
    simp [verifyToken, issueToken]
    omega
  refine ⟨hv, ?_⟩
  simp [get_current_user_t, login_user, init_auth, hv]

/-- Claim C5, witness: identity 42 issued at time 1000 and verified 25 seconds
later round-trips, and the session layer hands 42 to the loader. -/
theorem C5_witness :
    verifyToken "app-secret" 2592000 (issueToken "app-secret" 42 1000)
        (1000 + 25) = .ok 42
    ∧ get_current_user_t (init_auth "app-secret" (fun n => some n))
        (some (login_user (init_auth "app-secret" (fun n => some n)) 42 1000))
        (1000 + 25) = some 42 :=
  C5_roundTrip (fun n => some n) "app-secret" 42 1000 25 (by decide)

/-! ## Claim C6 -/

/-- Claim C6, counterexample to the configurability part: the initialization
call takes only a secret and a loader; under two initializations that differ in
every argument, a fresh token still verifies at elapsed time exactly 2,592,000
and is expired (anonymous) at 2,592,001 — the threshold sits at the hardcoded
literal and no initialization argument moves it. -/
theorem C6_counterexample :
    get_current_user_t (init_auth "alpha" (fun n => some n))
        (some (login_user (init_auth "alpha" (fun n => some n)) 5 0)) 2592001
        = none
    ∧ get_current_user_t (init_auth "beta" (fun _ => some 99))
        (some (login_user (init_auth "beta" (fun _ => some 99)) 5 0)) 2592001
        = none
    ∧ get_current_user_t (init_auth "alpha" (fun n => some n))
        (some (login_user (init_auth "alpha" (fun n => some n)) 5 0)) 2592000
        = some 5
    ∧ get_current_user_t (init_auth "beta" (fun _ => some 99))
        (some (login_user (init_auth "beta" (fun _ => some 99)) 5 0)) 2592000
        = some 99 :=
  ⟨rfl, rfl, rfl, rfl⟩

/-- Claim C6 (amended): for every identity, verifying its token at elapsed time
strictly greater than 2,592,000 seconds yields Expired, and the session layer
degrades to the anonymous caller, never the identity; the maximum age is the
fixed literal 2,592,000 hardcoded at the verification call — `init_auth` has
no maximum-age parameter, and under every initialization (any secret, any
loader) verification still succeeds at elapsed time exactly 2,592,000. -/
theorem C6_amended {υ : Type} (loader : Nat → Option υ) (secret : String)
    (i issuedAt t : Nat) (h : t > 2592000) :
    verifyToken secret 2592000 (issueToken secret i issuedAt) (issuedAt + t)
        = .expired
    ∧ get_current_user_t (init_auth secret loader)
        (some (login_user (init_auth secret loader) i issuedAt)) (issuedAt + t)
        = none
    ∧ get_current_user_t (init_auth secret loader)
        (some (login_user (init_auth secret loader) i issuedAt))
        (issuedAt + 2592000) = loader i := by
  have hage : issuedAt + t - issuedAt > 2592000 := by omega
  have hage0 : ¬ (issuedAt + 2592000 - issuedAt > 2592000) := by omega
  have hv : verifyToken secret 2592000 (issueToken secret i issuedAt)
      (issuedAt + t) = .expired := by
    simp [verifyToken, issueToken]
    omega
  refine ⟨hv, ?_, ?_⟩
  · simp [get_current_user_t, login_user, init_auth, hv]
  · simp [get_current_user_t, login_user, init_auth, verifyToken, issueToken, hage0]

/-- Claim C6, witness: one second past the maximum age the token for identity 7
is expired and the session is anonymous, while at exactly the maximum age it
still resolves. -/
theorem C6_witness :
    verifyToken "k" 2592000 (issueToken "k" 7 100) (100 + 2592001) = .expired
    ∧ get_current_user_t (init_auth "k" (fun n => some n))
        (some (login_user (init_auth "k" (fun n => some n)) 7 100))
        (100 + 2592001) = none
    ∧ get_current_user_t (init_auth "k" (fun n => some n))
        (some (login_user (init_auth "k" (fun n => some n)) 7 100))
        (100 + 2592000) = some 7 :=
  C6_amended (fun n => some n) "k" 7 100 2592001 (by decide)

/-! ## Claim C8 -/

/-- Claim C8: an anonymous caller hitting a guarded handler is redirected —
`login_required` to the login location, `admin_required` to the elevated-area
landing location — and the outcome is the same whatever handler is wrapped, so
the handler body never executes and none of its effects are observable. -/
theorem C8_guardsRedirectAnonymous {υ σ ρ : Type} (url_for : String → String)
    (is_admin : υ → Bool) (h₁ h₂ : GuardRequest υ → σ → ρ)
    (request : GuardRequest υ) (args : σ) (hanon : request.user = none) :
    login_required url_for h₁ request args
        = .redirectTo (url_for "auth.login")
    ∧ admin_required url_for is_admin h₁ request args
        = .redirectTo (url_for "admin.index")
    ∧ login_required url_for h₁ request args
        = login_required url_for h₂ request args
    ∧ admin_required url_for is_admin h₁ request args
        = admin_required url_for is_admin h₂ request args := by
  obtain ⟨u⟩ := request
  cases hanon
  exact ⟨rfl, rfl, rfl, rfl⟩

/-- Claim C8, witness: the guard theorem at a concrete anonymous request with
two handlers returning different values. -/
theorem C8_witness :
    login_required (fun s => s) (fun _ _ => (1 : Nat))
        (GuardRequest.mk (none : Option Unit)) () = .redirectTo "auth.login"
    ∧ admin_required (fun s => s) (fun _ => true) (fun _ _ => (1 : Nat))
        (GuardRequest.mk (none : Option Unit)) () = .redirectTo "admin.index"
    ∧ login_required (fun s => s) (fun _ _ => (1 : Nat))
        (GuardRequest.mk (none : Option Unit)) ()
      = login_required (fun s => s) (fun _ _ => (2 : Nat))
        (GuardRequest.mk (none : Option Unit)) ()
    ∧ admin_required (fun s => s) (fun _ => true) (fun _ _ => (1 : Nat))
        (GuardRequest.mk (none : Option Unit)) ()
      = admin_required (fun s => s) (fun _ => true) (fun _ _ => (2 : Nat))
        (GuardRequest.mk (none : Option Unit)) () :=
  C8_guardsRedirectAnonymous (fun s => s) (fun _ => true) (fun _ _ => 1)
    (fun _ _ => 2) (GuardRequest.mk none) () rfl

/-! ## Claim C9 -/

/-- Claim C9: when the blueprint list is ordered most-specific first (as the
spec says the application builds it), the middleware serves via the first
matching root, which is a blueprint root of maximal matching prefix length;
blueprint roots always win over the global root, and the global root serves
exactly the remaining requests that match its own URL. -/
theorem C9_rootPriority (bps : List Blueprint) (static_url path : String)
    (hsorted : MostSpecificFirst bps) :
    (∀ bp ∈ bps, bpMatches path bp = true →
      ∃ bp0, staticFilesRoute bps static_url path = .viaBlueprint bp0
        ∧ bp0 ∈ bps ∧ bpMatches path bp0 = true
        ∧ ∀ bp1 ∈ bps, bpMatches path bp1 = true →
            pyLen bp1.static_url_path ≤ pyLen bp0.static_url_path)
    ∧ ((∀ bp ∈ bps, bpMatches path bp = false) →
      staticFilesRoute bps static_url path
        = if pyStartswith path static_url then .viaGlobal else .downstream) := by
  induction bps with
  | nil =>
    refine ⟨?_, ?_⟩
    · intro bp hbp
      exact absurd hbp (List.not_mem_nil bp)
    · intro _
      simp [staticFilesRoute]
  | cons hd tl ih =>
    have ihs := ih hsorted.of_cons
    refine ⟨?_, ?_⟩
    · intro bp hbp hmatch
      cases hhd : bpMatches path hd with
      | true =>
        refine ⟨hd, ?_, List.mem_cons_self hd tl, hhd, ?_⟩
        · simp [staticFilesRoute, List.find?, hhd]
        · intro bp1 hbp1 hm1
          rcases List.mem_cons.mp hbp1 with h | h
          · subst h
            exact Nat.le_refl _
          · exact List.rel_of_pairwise_cons hsorted h
      | false =>
        have hbp' : bp ∈ tl := by
          rcases List.mem_cons.mp hbp with h | h
          · subst h
            exact absurd hmatch (by simp [hhd])
          · exact h
        obtain ⟨bp0, hroute, hmem, hm0, hmax⟩ := ihs.1 bp hbp' hmatch
        refine ⟨bp0, ?_, List.mem_cons_of_mem hd hmem, hm0, ?_⟩
        · rw [show staticFilesRoute (hd :: tl) static_url path
              = staticFilesRoute tl static_url path by
            simp [staticFilesRoute, List.find?, hhd]]
          exact hroute
        · intro bp1 hbp1 hm1
          rcases List.mem_cons.mp hbp1 with h | h
          · subst h
            exact absurd hm1 (by simp [hhd])
          · exact hmax bp1 h hm1
    · intro hnone
      have hhd : bpMatches path hd = false := hnone hd (List.mem_cons_self hd tl)
      rw [show staticFilesRoute (hd :: tl) static_url path
          = staticFilesRoute tl static_url path by
        simp [staticFilesRoute, List.find?, hhd]]
      exact ihs.2 (fun bp h => hnone bp (List.mem_cons_of_mem hd h))

/-- Claim C9, witness: with an admin blueprint root and the global root, the
request `/admin/static/a.css` is served by the admin blueprint, of maximal
matching prefix length among the registered roots. -/
theorem C9_witness :
    ∃ bp0, staticFilesRoute
        [Blueprint.mk "/admin/static" "admin_static", Blueprint.mk "/s" "other"]
        "/static" "/admin/static/a.css" = .viaBlueprint bp0
      ∧ bp0 ∈ [Blueprint.mk "/admin/static" "admin_static",
               Blueprint.mk "/s" "other"]
      ∧ bpMatches "/admin/static/a.css" bp0 = true
      ∧ ∀ bp1 ∈ [Blueprint.mk "/admin/static" "admin_static",
                 Blueprint.mk "/s" "other"],
          bpMatches "/admin/static/a.css" bp1 = true →
            pyLen bp1.static_url_path ≤ pyLen bp0.static_url_path :=
  (C9_rootPriority
      [Blueprint.mk "/admin/static" "admin_static", Blueprint.mk "/s" "other"]
      "/static" "/admin/static/a.css"
      (by simp [MostSpecificFirst, pyLen]; decide)).1
    (Blueprint.mk "/admin/static" "admin_static") (List.mem_cons_self _ _) rfl

end JsWeb
